import Mathlib

/-!
Verification of the Syndesmoscope interaction/state engine: the selection
store (SelectionContext.jsx), the per-pane viewport controller (useZoomPan
together with the d3-zoom scale clamping it invokes), the node-link layout
build and drag handlers (NodeLinkPane with d3-force link resolution), and
the k-Snakes pane value/sorting pipeline (KSnakesPane.jsx).
-/

namespace Syndesmoscope

/-! ## Selection store (src/src/contexts/SelectionContext.jsx) -/

/-- State of the selection store: the four identifier sets held by
SelectionProvider (hovered and selected, for nodes and edges). -/
structure SelectionState where
  hoveredNodes : Finset ℤ
  hoveredEdges : Finset ℤ
  selectedNodes : Finset ℤ
  selectedEdges : Finset ℤ
  deriving DecidableEq

/-- hoverNode: setHoveredNodes(new Set([nodeIdx])). -/
def hoverNode (s : SelectionState) (nodeIdx : ℤ) : SelectionState :=
  { s with hoveredNodes := {nodeIdx} }

/-- hoverNodes: setHoveredNodes(new Set(nodeIdxArray)). -/
def hoverNodes (s : SelectionState) (nodeIdxArray : List ℤ) : SelectionState :=
  { s with hoveredNodes := nodeIdxArray.toFinset }

/-- clearHoveredNodes: setHoveredNodes(new Set()). -/
def clearHoveredNodes (s : SelectionState) : SelectionState :=
  { s with hoveredNodes := ∅ }

/-- hoverEdge: setHoveredEdges(new Set([edgeIdx])). -/
def hoverEdge (s : SelectionState) (edgeIdx : ℤ) : SelectionState :=
  { s with hoveredEdges := {edgeIdx} }

/-- hoverEdges: setHoveredEdges(new Set(edgeIdxArray)). -/
def hoverEdges (s : SelectionState) (edgeIdxArray : List ℤ) : SelectionState :=
  { s with hoveredEdges := edgeIdxArray.toFinset }

/-- clearHoveredEdges: setHoveredEdges(new Set()). -/
def clearHoveredEdges (s : SelectionState) : SelectionState :=
  { s with hoveredEdges := ∅ }

/-- clearHover: empties both hovered sets. -/
def clearHover (s : SelectionState) : SelectionState :=
  { s with hoveredNodes := ∅, hoveredEdges := ∅ }

/-- toggleNodeSelection: delete the id if present in selectedNodes, else add it. -/
def toggleNodeSelection (s : SelectionState) (nodeIdx : ℤ) : SelectionState :=
  { s with selectedNodes :=
      if nodeIdx ∈ s.selectedNodes then s.selectedNodes.erase nodeIdx
      else insert nodeIdx s.selectedNodes }

/-- selectNodes: forEach add over the array, i.e. union with the array's set. -/
def selectNodes (s : SelectionState) (nodeIdxArray : List ℤ) : SelectionState :=
  { s with selectedNodes := s.selectedNodes ∪ nodeIdxArray.toFinset }

/-- deselectNodes: forEach delete over the array, i.e. set difference. -/
def deselectNodes (s : SelectionState) (nodeIdxArray : List ℤ) : SelectionState :=
  { s with selectedNodes := s.selectedNodes \ nodeIdxArray.toFinset }

/-- clearSelectedNodes: setSelectedNodes(new Set()). -/
def clearSelectedNodes (s : SelectionState) : SelectionState :=
  { s with selectedNodes := ∅ }

/-- toggleEdgeSelection: delete the id if present in selectedEdges, else add it. -/
def toggleEdgeSelection (s : SelectionState) (edgeIdx : ℤ) : SelectionState :=
  { s with selectedEdges :=
      if edgeIdx ∈ s.selectedEdges then s.selectedEdges.erase edgeIdx
      else insert edgeIdx s.selectedEdges }

/-- selectEdges: forEach add over the array. -/
def selectEdges (s : SelectionState) (edgeIdxArray : List ℤ) : SelectionState :=
  { s with selectedEdges := s.selectedEdges ∪ edgeIdxArray.toFinset }

/-- deselectEdges: forEach delete over the array. -/
def deselectEdges (s : SelectionState) (edgeIdxArray : List ℤ) : SelectionState :=
  { s with selectedEdges := s.selectedEdges \ edgeIdxArray.toFinset }

/-- clearSelectedEdges: setSelectedEdges(new Set()). -/
def clearSelectedEdges (s : SelectionState) : SelectionState :=
  { s with selectedEdges := ∅ }

/-- clearAllSelections: empties all four sets. -/
def clearAllSelections (_s : SelectionState) : SelectionState :=
  ⟨∅, ∅, ∅, ∅⟩

/-- isNodeHighlighted: hoveredNodes.has(nodeIdx) || selectedNodes.has(nodeIdx). -/
def isNodeHighlighted (s : SelectionState) (nodeIdx : ℤ) : Bool :=
  decide (nodeIdx ∈ s.hoveredNodes) || decide (nodeIdx ∈ s.selectedNodes)

/-- isEdgeHighlighted: hoveredEdges.has(edgeIdx) || selectedEdges.has(edgeIdx). -/
def isEdgeHighlighted (s : SelectionState) (edgeIdx : ℤ) : Bool :=
  decide (edgeIdx ∈ s.hoveredEdges) || decide (edgeIdx ∈ s.selectedEdges)

/-! ## Viewport controller (useZoomPan in src/unnamed/part_000, with the
d3-zoom transform algebra it invokes) -/

/-- A d3 zoom transform: scale factor `k` and translation `(x, y)`.
Applying it sends a content point `p` to `(x + k * p.1, y + k * p.2)`. -/
structure Transform where
  k : ℚ
  x : ℚ
  y : ℚ
  deriving DecidableEq

/-- d3.zoomIdentity. -/
def zoomIdentity : Transform := ⟨1, 0, 0⟩

/-- Transform.apply: screen position of a content point. -/
def applyT (t : Transform) (p : ℚ × ℚ) : ℚ × ℚ :=
  (t.x + t.k * p.1, t.y + t.k * p.2)

/-- Transform.invert. -/
def invertT (t : Transform) (p : ℚ × ℚ) : ℚ × ℚ :=
  ((p.1 - t.x) / t.k, (p.2 - t.y) / t.k)

/-- d3-zoom internal scale: replace `k` by its clamp into the scale extent
`[lo, hi]`, keeping the translation. -/
def scaleClamped (lo hi : ℚ) (t : Transform) (k : ℚ) : Transform :=
  ⟨max lo (min hi k), t.x, t.y⟩

/-- d3-zoom internal translate: keep `k`, move so that the content point `p1`
lands on the screen point `p0`. -/
def translateTo (t : Transform) (p0 p1 : ℚ × ℚ) : Transform :=
  ⟨t.k, p0.1 - p1.1 * t.k, p0.2 - p1.2 * t.k⟩

/-- d3-zoom scaleTo at point `p0`: clamp the requested scale into `[lo, hi]`
and re-anchor so the content point under `p0` stays under `p0`. -/
def scaleTo (lo hi : ℚ) (p0 : ℚ × ℚ) (t : Transform) (k : ℚ) : Transform :=
  translateTo (scaleClamped lo hi t k) p0 (invertT t p0)

/-- d3-zoom scaleBy: multiply the current scale by a factor, then clamp. -/
def scaleBy (lo hi : ℚ) (p0 : ℚ × ℚ) (t : Transform) (f : ℚ) : Transform :=
  scaleTo lo hi p0 t (t.k * f)

/-- Configuration of useZoomPan: scale extent and zoom step
(DEFAULT_OPTIONS gives scaleExtent [0.1, 4] and zoomStep 0.25). -/
structure ZoomConfig where
  scaleLo : ℚ
  scaleHi : ℚ
  zoomStep : ℚ

/-- zoomIn: scaleBy (1 + zoomStep), anchored at the viewport center. -/
def zoomIn (cfg : ZoomConfig) (W H : ℚ) (t : Transform) : Transform :=
  scaleBy cfg.scaleLo cfg.scaleHi (W / 2, H / 2) t (1 + cfg.zoomStep)

/-- zoomOut: scaleBy 1 / (1 + zoomStep), anchored at the viewport center. -/
def zoomOut (cfg : ZoomConfig) (W H : ℚ) (t : Transform) : Transform :=
  scaleBy cfg.scaleLo cfg.scaleHi (W / 2, H / 2) t (1 / (1 + cfg.zoomStep))

/-- resetZoom: jump to the identity transform (unclamped zoom.transform). -/
def resetZoom (_t : Transform) : Transform := zoomIdentity

/-- setZoomTransform: direct assignment of a transform (unclamped). -/
def setZoomTransform (_t newTransform : Transform) : Transform := newTransform

/-- A content bounding rectangle passed to fitToContent. -/
structure Bounds where
  x : ℚ
  y : ℚ
  width : ℚ
  height : ℚ

/-- fitToContent: no-op when the surface or the bounds has a zero dimension;
otherwise scale = min((W - 2 pad) / bounds.width, (H - 2 pad) / bounds.height,
scaleExtent max) and translate so the bounds center maps to the surface
center.  Applied through zoom.transform, which does not re-clamp. -/
def fitToContent (cfg : ZoomConfig) (W H : ℚ) (t : Transform)
    (b : Bounds) (padding : ℚ) : Transform :=
  if W = 0 ∨ H = 0 ∨ b.width = 0 ∨ b.height = 0 then t
  else
    let scale := min (min ((W - padding * 2) / b.width) ((H - padding * 2) / b.height))
      cfg.scaleHi
    let centerX := b.x + b.width / 2
    let centerY := b.y + b.height / 2
    ⟨scale, W / 2 - scale * centerX, H / 2 - scale * centerY⟩

/-- zoomPercent: round(scale * 100). -/
def zoomPercent (t : Transform) : ℤ := round (t.k * 100)

/-- Interaction steps that reach new viewport states through d3-zoom's
clamped gesture path: the two zoom buttons, reset, a wheel-zoom step at an
arbitrary pointer position with an arbitrary positive factor, and a
drag-to-pan step (which changes only the translation). -/
inductive ZoomOp where
  | stepIn : ZoomOp
  | stepOut : ZoomOp
  | reset : ZoomOp
  | wheel (p : ℚ × ℚ) (f : ℚ) : ZoomOp
  | pan (p0 p1 : ℚ × ℚ) : ZoomOp

/-- One viewport controller step. -/
def applyZoomOp (cfg : ZoomConfig) (W H : ℚ) (t : Transform) : ZoomOp → Transform
  | ZoomOp.stepIn => zoomIn cfg W H t
  | ZoomOp.stepOut => zoomOut cfg W H t
  | ZoomOp.reset => resetZoom t
  | ZoomOp.wheel p f => scaleBy cfg.scaleLo cfg.scaleHi p t f
  | ZoomOp.pan p0 p1 => translateTo t p0 p1

/-- Run a sequence of viewport controller steps. -/
def runZoomOps (cfg : ZoomConfig) (W H : ℚ) (t : Transform) (ops : List ZoomOp) :
    Transform :=
  ops.foldl (applyZoomOp cfg W H) t

/-! ## Layout simulation build (NodeLinkPane in src/unnamed/part_003).

NodeLinkPane builds the simulation with
`d3.forceLink(edges).id(d => d.node_idx)`; the identifier resolution below
is that of d3-force's forceLink initializer: a Map from `id(node)` to node
is built (a later duplicate id overwrites an earlier one), each link's
numeric `source`/`target` is looked up in it, and a missing id throws
`node not found`, aborting the build. -/

/-- A simulation node; only the identifier matters for link resolution. -/
structure SimNode where
  node_idx : ℤ
  deriving DecidableEq

/-- An input edge as handed to forceLink: identifiers, not object refs. -/
structure InEdge where
  edge_idx : ℤ
  source : ℤ
  target : ℤ
  deriving DecidableEq

/-- A resolved simulation edge: endpoints replaced by node records. -/
structure SimEdge where
  edge_idx : ℤ
  source : SimNode
  target : SimNode
  deriving DecidableEq

/-- Lookup in the node-by-id Map (later duplicates win, hence the reverse);
a miss is the thrown `node not found` error. -/
def findNode (nodes : List SimNode) (i : ℤ) : Except String SimNode :=
  match nodes.reverse.find? (fun n => n.node_idx == i) with
  | some n => Except.ok n
  | none => Except.error "node not found"

/-- forceLink initialization over the edge list: resolve each edge's
endpoints in order; the first unresolved identifier throws and aborts the
whole build. -/
def resolveLinks (nodes : List SimNode) : List InEdge → Except String (List SimEdge)
  | [] => Except.ok []
  | e :: rest =>
    match findNode nodes e.source with
    | Except.error msg => Except.error msg
    | Except.ok s =>
      match findNode nodes e.target with
      | Except.error msg => Except.error msg
      | Except.ok t =>
        match resolveLinks nodes rest with
        | Except.error msg => Except.error msg
        | Except.ok res => Except.ok (⟨e.edge_idx, s, t⟩ :: res)

/-- An input edge is resolvable when both endpoint identifiers occur in the
node list. -/
def Resolvable (nodes : List SimNode) (e : InEdge) : Prop :=
  (∃ n ∈ nodes, n.node_idx = e.source) ∧ (∃ n ∈ nodes, n.node_idx = e.target)

/-- A resolved edge mirrors its input edge: same edge identifier, endpoint
records whose identifiers equal the input identifiers, and endpoint records
drawn from the node list. -/
def Mirrors (nodes : List SimNode) (e : InEdge) (r : SimEdge) : Prop :=
  r.edge_idx = e.edge_idx ∧ r.source.node_idx = e.source ∧
    r.target.node_idx = e.target ∧ r.source ∈ nodes ∧ r.target ∈ nodes

/-! ## Drag handlers (drag in src/unnamed/part_003) -/

/-- The dragged node record: position and the optional pinned position. -/
structure DragNode where
  x : ℚ
  y : ℚ
  fx : Option ℚ
  fy : Option ℚ
  deriving DecidableEq

/-- The part of the simulation the drag handlers touch: its alpha target
and the dragged node (event.subject). -/
structure DragSim where
  alphaTarget : ℚ
  node : DragNode
  deriving DecidableEq

/-- dragstarted: if the event is not active (no other gesture in flight),
set alphaTarget to 0.3 and restart; then pin the subject at its current
position. -/
def dragstarted (active : Bool) (s : DragSim) : DragSim :=
  let s1 := if active then s else { s with alphaTarget := 3 / 10 }
  { s1 with node := { s1.node with fx := some s1.node.x, fy := some s1.node.y } }

/-- dragged: move the pin to the pointer position. -/
def dragged (px py : ℚ) (s : DragSim) : DragSim :=
  { s with node := { s.node with fx := some px, fy := some py } }

/-- dragended: if the event is not active, relax alphaTarget back to 0;
then clear the pin. -/
def dragended (active : Bool) (s : DragSim) : DragSim :=
  let s1 := if active then s else { s with alphaTarget := 0 }
  { s1 with node := { s1.node with fx := none, fy := none } }

/-! ## k-Snakes pane (src/src/components/panes/KSnakesPane.jsx) -/

/-- A node record as the k-Snakes pane reads it: the identifier and the two
numeric attributes its fallback chain consults, each possibly absent. -/
structure KNode where
  node_idx : ℤ
  degree : Option ℚ
  k : Option ℚ
  deriving DecidableEq

/-- JavaScript `a || fallback` on an optional number: the value when it is
present and truthy (nonzero), otherwise the fallback. -/
def numOr (a : Option ℚ) (fallback : ℚ) : ℚ :=
  match a with
  | some v => if v = 0 then fallback else v
  | none => fallback

/-- The scalar value `d.degree || d.k || 0` used for sorting and for the
y-coordinate of each snake node. -/
def nodeValue (n : KNode) : ℚ :=
  numOr n.degree (numOr n.k 0)

/-- The comparator-based ascending sort
`[...data.nodes].sort((a, b) => value(a) - value(b))`. -/
def sortedNodes (nodes : List KNode) : List KNode :=
  nodes.mergeSort (fun a b => decide (nodeValue a ≤ nodeValue b))

/-- The x position bound to the snake node at sorted index `i`:
d3.scaleLinear with domain [0, n-1] and range
[nodePadding, innerWidth - nodePadding], nodePadding = 20 (a degenerate
one-point domain interpolates at 1/2, as d3 does). -/
def snakeCX (n : ℕ) (innerWidth : ℚ) (i : ℕ) : ℚ :=
  if n ≤ 1 then 20 + (1 / 2) * ((innerWidth - 20) - 20)
  else 20 + ((i : ℚ) / ((n : ℚ) - 1)) * ((innerWidth - 20) - 20)

/-- The y position bound to a snake node: yScale(d.degree || d.k || 0),
with domain [0, maxK] and range [innerHeight - nodePadding, nodePadding]. -/
def snakeCY (maxK innerHeight : ℚ) (d : KNode) : ℚ :=
  if maxK = 0 then (innerHeight - 20) + (1 / 2) * (20 - (innerHeight - 20))
  else (innerHeight - 20) + (nodeValue d / maxK) * (20 - (innerHeight - 20))

/-! ## Theorems -/

/-- Claim C4, counterexample: hovering the empty node set does not empty
both hovered sets.  From a state whose hovered-edge set is {5}, hoverNodes
with the empty array leaves the hovered-edge set at {5}, while clearHover
empties it; so hover({}) does not behave like clearHover on the hovered-edge
set, contrary to the claim. -/
theorem hoverNodes_empty_keeps_hoveredEdges :
    (hoverNodes ⟨{1}, {5}, ∅, ∅⟩ []).hoveredEdges = {5} ∧
      (hoverNodes ⟨{1}, {5}, ∅, ∅⟩ []).hoveredEdges ≠ ∅ ∧
      (clearHover ⟨{1}, {5}, ∅, ∅⟩).hoveredEdges = ∅ := by
  refine ⟨rfl, ?_, rfl⟩
  decide

/-- Claim C4 (amended): hoverNodes replaces the hovered-node set wholesale
with exactly the given identifiers and touches nothing else (in particular
hover of the empty set empties only the hovered-node set, leaving hovered
edges unchanged); clearHover empties both hovered sets simultaneously;
consequently after hover({a,b}) then hover({c}) the hovered-node set is
exactly {c}. -/
theorem hoverNodes_replaces_wholesale :
    ∀ (s : SelectionState) (l : List ℤ),
      (hoverNodes s l).hoveredNodes = l.toFinset ∧
      (hoverNodes s l).hoveredEdges = s.hoveredEdges ∧
      (hoverNodes s l).selectedNodes = s.selectedNodes ∧
      (hoverNodes s l).selectedEdges = s.selectedEdges ∧
      (clearHover s).hoveredNodes = ∅ ∧
      (clearHover s).hoveredEdges = ∅ ∧
      ∀ a b c : ℤ, (hoverNodes (hoverNodes s [a, b]) [c]).hoveredNodes = {c} := by
  intro s l
  refine ⟨rfl, rfl, rfl, rfl, rfl, rfl, ?_⟩
  intro a b c
  simp [hoverNodes]

/-- Claim C5: toggleNodeSelection and toggleEdgeSelection always flip the
membership of the given identifier (a no-op is impossible), and applying the
same toggle twice returns the selected set to exactly its original state. -/
theorem toggleSelection_involution :
    ∀ (s : SelectionState) (i : ℤ),
      (i ∈ (toggleNodeSelection s i).selectedNodes ↔ i ∉ s.selectedNodes) ∧
      (toggleNodeSelection (toggleNodeSelection s i) i).selectedNodes =
        s.selectedNodes ∧
      (i ∈ (toggleEdgeSelection s i).selectedEdges ↔ i ∉ s.selectedEdges) ∧
      (toggleEdgeSelection (toggleEdgeSelection s i) i).selectedEdges =
        s.selectedEdges := by
  intro s i
  refine ⟨?_, ?_, ?_, ?_⟩
  · by_cases h : i ∈ s.selectedNodes <;>
      simp [toggleNodeSelection, h]
  · by_cases h : i ∈ s.selectedNodes <;>
      simp [toggleNodeSelection, h, Finset.insert_erase, Finset.erase_insert]
  · by_cases h : i ∈ s.selectedEdges <;>
      simp [toggleEdgeSelection, h]
  · by_cases h : i ∈ s.selectedEdges <;>
      simp [toggleEdgeSelection, h, Finset.insert_erase, Finset.erase_insert]

/-- Claim C8: isNodeHighlighted and isEdgeHighlighted are true exactly on
the union of the corresponding hovered and selected sets, and after
clearAllSelections both are false for every identifier. -/
theorem isHighlighted_iff_union :
    ∀ (s : SelectionState) (i j : ℤ),
      (isNodeHighlighted s i = true ↔ i ∈ s.hoveredNodes ∪ s.selectedNodes) ∧
      (isEdgeHighlighted s j = true ↔ j ∈ s.hoveredEdges ∪ s.selectedEdges) ∧
      isNodeHighlighted (clearAllSelections s) i = false ∧
      isEdgeHighlighted (clearAllSelections s) j = false := by
  intro s i j
  refine ⟨?_, ?_, ?_, ?_⟩ <;>
    simp [isNodeHighlighted, isEdgeHighlighted, clearAllSelections,
      Finset.mem_union]

/-- Claim C9: every node-scoped selection-store operation leaves the
hovered-edge and selected-edge sets unchanged, every edge-scoped operation
leaves the hovered-node and selected-node sets unchanged, hover operations
do not modify either selected set, and selection operations do not modify
either hovered set. -/
theorem selection_ops_frame :
    ∀ (s : SelectionState) (i : ℤ) (l : List ℤ),
      ((hoverNode s i).hoveredEdges = s.hoveredEdges ∧
        (hoverNode s i).selectedNodes = s.selectedNodes ∧
        (hoverNode s i).selectedEdges = s.selectedEdges) ∧
      ((hoverNodes s l).hoveredEdges = s.hoveredEdges ∧
        (hoverNodes s l).selectedNodes = s.selectedNodes ∧
        (hoverNodes s l).selectedEdges = s.selectedEdges) ∧
      ((clearHoveredNodes s).hoveredEdges = s.hoveredEdges ∧
        (clearHoveredNodes s).selectedNodes = s.selectedNodes ∧
        (clearHoveredNodes s).selectedEdges = s.selectedEdges) ∧
      ((toggleNodeSelection s i).hoveredNodes = s.hoveredNodes ∧
        (toggleNodeSelection s i).hoveredEdges = s.hoveredEdges ∧
        (toggleNodeSelection s i).selectedEdges = s.selectedEdges) ∧
      ((selectNodes s l).hoveredNodes = s.hoveredNodes ∧
        (selectNodes s l).hoveredEdges = s.hoveredEdges ∧
        (selectNodes s l).selectedEdges = s.selectedEdges) ∧
      ((deselectNodes s l).hoveredNodes = s.hoveredNodes ∧
        (deselectNodes s l).hoveredEdges = s.hoveredEdges ∧
        (deselectNodes s l).selectedEdges = s.selectedEdges) ∧
      ((clearSelectedNodes s).hoveredNodes = s.hoveredNodes ∧
        (clearSelectedNodes s).hoveredEdges = s.hoveredEdges ∧
        (clearSelectedNodes s).selectedEdges = s.selectedEdges) ∧
      ((hoverEdge s i).hoveredNodes = s.hoveredNodes ∧
        (hoverEdge s i).selectedNodes = s.selectedNodes ∧
        (hoverEdge s i).selectedEdges = s.selectedEdges) ∧
      ((hoverEdges s l).hoveredNodes = s.hoveredNodes ∧
        (hoverEdges s l).selectedNodes = s.selectedNodes ∧
        (hoverEdges s l).selectedEdges = s.selectedEdges) ∧
      ((clearHoveredEdges s).hoveredNodes = s.hoveredNodes ∧
        (clearHoveredEdges s).selectedNodes = s.selectedNodes ∧
        (clearHoveredEdges s).selectedEdges = s.selectedEdges) ∧
      ((toggleEdgeSelection s i).hoveredNodes = s.hoveredNodes ∧
        (toggleEdgeSelection s i).hoveredEdges = s.hoveredEdges ∧
        (toggleEdgeSelection s i).selectedNodes = s.selectedNodes) ∧
      ((selectEdges s l).hoveredNodes = s.hoveredNodes ∧
        (selectEdges s l).hoveredEdges = s.hoveredEdges ∧
        (selectEdges s l).selectedNodes = s.selectedNodes) ∧
      ((deselectEdges s l).hoveredNodes = s.hoveredNodes ∧
        (deselectEdges s l).hoveredEdges = s.hoveredEdges ∧
        (deselectEdges s l).selectedNodes = s.selectedNodes) ∧
      ((clearSelectedEdges s).hoveredNodes = s.hoveredNodes ∧
        (clearSelectedEdges s).hoveredEdges = s.hoveredEdges ∧
        (clearSelectedEdges s).selectedNodes = s.selectedNodes) := by
  intro s i l
  exact ⟨⟨rfl, rfl, rfl⟩, ⟨rfl, rfl, rfl⟩, ⟨rfl, rfl, rfl⟩, ⟨rfl, rfl, rfl⟩,
    ⟨rfl, rfl, rfl⟩, ⟨rfl, rfl, rfl⟩, ⟨rfl, rfl, rfl⟩, ⟨rfl, rfl, rfl⟩,
    ⟨rfl, rfl, rfl⟩, ⟨rfl, rfl, rfl⟩, ⟨rfl, rfl, rfl⟩, ⟨rfl, rfl, rfl⟩,
    ⟨rfl, rfl, rfl⟩, ⟨rfl, rfl, rfl⟩⟩

/-- Claim C7: immediately after dragstarted the dragged node is pinned at
its current position (fx = x and fy = y); after dragended the pin is
cleared (fx = fy = null); and dragended relaxes the alpha target to 0
exactly when no other drag gesture is active, leaving it unchanged
otherwise (dragstarted likewise bumps it to 0.3 only when inactive). -/
theorem drag_pin_release :
    ∀ (active : Bool) (s : DragSim),
      (dragstarted active s).node.fx = some ((dragstarted active s).node.x) ∧
      (dragstarted active s).node.fy = some ((dragstarted active s).node.y) ∧
      (dragstarted active s).node.fx = some s.node.x ∧
      (dragstarted active s).node.fy = some s.node.y ∧
      (dragended active s).node.fx = none ∧
      (dragended active s).node.fy = none ∧
      (dragended true s).alphaTarget = s.alphaTarget ∧
      (dragended false s).alphaTarget = 0 ∧
      (dragstarted true s).alphaTarget = s.alphaTarget ∧
      (dragstarted false s).alphaTarget = 3 / 10 := by
  intro active s
  cases active <;>
    exact ⟨rfl, rfl, rfl, rfl, rfl, rfl, rfl, rfl, rfl, rfl⟩

/-- One viewport controller step keeps the scale inside the scale extent,
given an extent that contains 1 (so reset stays inside) and a starting
scale inside the extent. -/
theorem applyZoomOp_scale_mem (cfg : ZoomConfig) (W H : ℚ) (t : Transform)
    (op : ZoomOp) (h1 : cfg.scaleLo ≤ 1) (h2 : 1 ≤ cfg.scaleHi)
    (hk1 : cfg.scaleLo ≤ t.k) (hk2 : t.k ≤ cfg.scaleHi) :
    cfg.scaleLo ≤ (applyZoomOp cfg W H t op).k ∧
      (applyZoomOp cfg W H t op).k ≤ cfg.scaleHi := by
  have hlh : cfg.scaleLo ≤ cfg.scaleHi := h1.trans h2
  cases op with
  | stepIn =>
    exact ⟨le_max_left _ _, max_le hlh (min_le_left _ _)⟩
  | stepOut =>
    exact ⟨le_max_left _ _, max_le hlh (min_le_left _ _)⟩
  | reset =>
    exact ⟨h1, h2⟩
  | wheel p f =>
    exact ⟨le_max_left _ _, max_le hlh (min_le_left _ _)⟩
  | pan p0 p1 =>
    exact ⟨hk1, hk2⟩

/-- Claim C2 (amended): for a scale extent [min, max] with min ≤ 1 ≤ max,
every viewport state reached from a state with scale inside the extent by
any sequence of zoomIn, zoomOut, reset, wheel-zoom and pan gesture steps
keeps the scale inside the extent; in particular repeated zoomIn never
pushes the scale above max and repeated zoomOut never below min.
(fitToContent and setZoomTransform are excluded: fitToContent clamps only
at the maximum and can set a scale below the minimum, and setZoomTransform
assigns an arbitrary transform unclamped.) -/
theorem runZoomOps_scale_clamped (cfg : ZoomConfig) (W H : ℚ) (t : Transform)
    (ops : List ZoomOp) (h1 : cfg.scaleLo ≤ 1) (h2 : 1 ≤ cfg.scaleHi)
    (hk1 : cfg.scaleLo ≤ t.k) (hk2 : t.k ≤ cfg.scaleHi) :
    cfg.scaleLo ≤ (runZoomOps cfg W H t ops).k ∧
      (runZoomOps cfg W H t ops).k ≤ cfg.scaleHi := by
  induction ops generalizing t with
  | nil => exact ⟨hk1, hk2⟩
  | cons op rest ih =>
    have hstep := applyZoomOp_scale_mem cfg W H t op h1 h2 hk1 hk2
    exact ih (applyZoomOp cfg W H t op) hstep.1 hstep.2

/-- Claim C2, witness: with the node-link configuration (scale extent
[0.1, 4], step 0.25) on a 200 by 200 surface, the scale after the step
sequence zoomIn, zoomIn, zoomOut starting from the identity stays inside
[0.1, 4]. -/
theorem runZoomOps_scale_clamped_witness :
    (1 / 10 : ℚ) ≤ (runZoomOps ⟨1 / 10, 4, 1 / 4⟩ 200 200 zoomIdentity
        [ZoomOp.stepIn, ZoomOp.stepIn, ZoomOp.stepOut]).k ∧
      (runZoomOps ⟨1 / 10, 4, 1 / 4⟩ 200 200 zoomIdentity
        [ZoomOp.stepIn, ZoomOp.stepIn, ZoomOp.stepOut]).k ≤ 4 :=
  runZoomOps_scale_clamped ⟨1 / 10, 4, 1 / 4⟩ 200 200 zoomIdentity
    [ZoomOp.stepIn, ZoomOp.stepIn, ZoomOp.stepOut]
    (by norm_num) (by norm_num) (by norm_num [zoomIdentity])
    (by norm_num [zoomIdentity])

/-- Claim C2, counterexample: fitToContent is a reachable viewport
operation, yet from the identity transform, with the node-link scale extent
[0.1, 4], surface 200 by 200 and content bounds 10000 by 10000 it sets the
scale to 1/50, strictly below the extent minimum 0.1 — so the scale
invariant over all listed operations fails. -/
theorem fitToContent_breaks_scaleExtent_min :
    (fitToContent ⟨1 / 10, 4, 1 / 4⟩ 200 200 zoomIdentity
        ⟨0, 0, 10000, 10000⟩ 0).k = 1 / 50 ∧
      (1 / 50 : ℚ) < 1 / 10 := by
  constructor
  · norm_num [fitToContent]
  · norm_num

/-- Claim C3: for a nondegenerate surface and nondegenerate bounds,
fitToContent produces exactly the transform with
scale = min((W - 2 pad)/bounds.width, (H - 2 pad)/bounds.height, max) and
translation sending the bounds center to the surface center, and applying
the resulting transform to the bounds center indeed yields the surface
center. -/
theorem fitToContent_correct (cfg : ZoomConfig) (W H : ℚ) (t : Transform)
    (b : Bounds) (padding : ℚ) (hW : 0 < W) (hH : 0 < H)
    (hbw : 0 < b.width) (hbh : 0 < b.height) :
    (fitToContent cfg W H t b padding).k =
      min (min ((W - padding * 2) / b.width) ((H - padding * 2) / b.height))
        cfg.scaleHi ∧
    (fitToContent cfg W H t b padding).x =
      W / 2 - (fitToContent cfg W H t b padding).k * (b.x + b.width / 2) ∧
    (fitToContent cfg W H t b padding).y =
      H / 2 - (fitToContent cfg W H t b padding).k * (b.y + b.height / 2) ∧
    applyT (fitToContent cfg W H t b padding)
      (b.x + b.width / 2, b.y + b.height / 2) = (W / 2, H / 2) := by
  have hg : ¬(W = 0 ∨ H = 0 ∨ b.width = 0 ∨ b.height = 0) := by
    push_neg
    exact ⟨ne_of_gt hW, ne_of_gt hH, ne_of_gt hbw, ne_of_gt hbh⟩
  unfold fitToContent
  rw [if_neg hg]
  refine ⟨rfl, rfl, rfl, ?_⟩
  simp only [applyT, Prod.mk.injEq]
  constructor <;> ring

/-- Claim C3, witness: with scale extent [0.1, 4], bounds
{x 0, y 0, width 100, height 50}, surface 200 by 200 and padding 0, the
fitted scale is min(2, 4, 4) = 2 and the bounds center (50, 25) maps to the
surface center (100, 100). -/
theorem fitToContent_correct_witness :
    (fitToContent ⟨1 / 10, 4, 1 / 4⟩ 200 200 zoomIdentity
        ⟨0, 0, 100, 50⟩ 0).k = 2 ∧
      applyT (fitToContent ⟨1 / 10, 4, 1 / 4⟩ 200 200 zoomIdentity
        ⟨0, 0, 100, 50⟩ 0) (50, 25) = (100, 100) := by
  have h := fitToContent_correct ⟨1 / 10, 4, 1 / 4⟩ 200 200 zoomIdentity
    ⟨0, 0, 100, 50⟩ 0 (by norm_num) (by norm_num) (by norm_num) (by norm_num)
  have hk : (fitToContent ⟨1 / 10, 4, 1 / 4⟩ 200 200 zoomIdentity
      ⟨0, 0, 100, 50⟩ 0).k = 2 := by
    rw [h.1]; norm_num
  refine ⟨hk, ?_⟩
  have hc := h.2.2.2
  norm_num at hc
  exact hc

/-- Claim C6: when the surface or the content bounds has a zero width or a
zero height, fitToContent is a silent no-op: it returns the viewport
transform unchanged (and, being a total function, cannot throw). -/
theorem fitToContent_degenerate_noop (cfg : ZoomConfig) (W H : ℚ)
    (t : Transform) (b : Bounds) (padding : ℚ)
    (h : W = 0 ∨ H = 0 ∨ b.width = 0 ∨ b.height = 0) :
    fitToContent cfg W H t b padding = t := by
  simp only [fitToContent, if_pos h]

/-- Claim C6, witness: fitToContent with bounds
{x 0, y 0, width 0, height 10} on a 200 by 200 surface leaves the identity
transform unchanged. -/
theorem fitToContent_degenerate_noop_witness :
    ((200 : ℚ) = 0 ∨ (200 : ℚ) = 0 ∨ (0 : ℚ) = 0 ∨ (10 : ℚ) = 0) ∧
      fitToContent ⟨1 / 10, 4, 1 / 4⟩ 200 200 zoomIdentity
        ⟨0, 0, 0, 10⟩ 0 = zoomIdentity :=
  ⟨Or.inr (Or.inr (Or.inl rfl)),
    fitToContent_degenerate_noop ⟨1 / 10, 4, 1 / 4⟩ 200 200 zoomIdentity
      ⟨0, 0, 0, 10⟩ 0 (Or.inr (Or.inr (Or.inl rfl)))⟩

/-- A successful findNode returns a node from the list carrying the looked
up identifier. -/
theorem findNode_ok {nodes : List SimNode} {i : ℤ} {n : SimNode}
    (h : findNode nodes i = Except.ok n) : n.node_idx = i ∧ n ∈ nodes := by
  unfold findNode at h
  cases hf : nodes.reverse.find? (fun m => m.node_idx == i) with
  | none => rw [hf] at h; exact absurd h (by simp)
  | some m =>
    rw [hf] at h
    cases h
    have hp := List.find?_some hf
    have hm := List.mem_of_find?_eq_some hf
    exact ⟨by simpa using hp, List.mem_reverse.mp hm⟩

/-- findNode succeeds whenever some node in the list carries the looked up
identifier. -/
theorem findNode_ok_of_exists {nodes : List SimNode} {i : ℤ}
    (h : ∃ n ∈ nodes, n.node_idx = i) : ∃ n, findNode nodes i = Except.ok n := by
  obtain ⟨n, hn, hi⟩ := h
  have hsome : (nodes.reverse.find? (fun m => m.node_idx == i)).isSome := by
    rw [List.find?_isSome]
    exact ⟨n, List.mem_reverse.mpr hn, by simpa using hi⟩
  obtain ⟨m, hm⟩ := Option.isSome_iff_exists.mp hsome
  exact ⟨m, by unfold findNode; rw [hm]⟩

/-- Claim C1 (amended): on a successful build, the resolved edge list
mirrors the input edge list exactly — same length and order, same edge
identifiers, endpoint node records drawn from the node list whose
identifiers equal the input source/target identifiers — so connectivity
matches the input exactly and an edge with an unresolved identifier never
appears in a resolved edge set; but when any edge has an unresolved
identifier the build does not initialize for the remaining valid edges:
link resolution throws, aborting the whole build. -/
theorem resolveLinks_amended :
    (∀ (nodes : List SimNode) (edges : List InEdge) (res : List SimEdge),
      resolveLinks nodes edges = Except.ok res →
        List.Forall₂ (Mirrors nodes) edges res) ∧
    (∀ (nodes : List SimNode) (edges : List InEdge),
      (∃ e ∈ edges, ¬Resolvable nodes e) →
        ∃ msg, resolveLinks nodes edges = Except.error msg) := by
  constructor
  · intro nodes edges
    induction edges with
    | nil =>
      intro res h
      cases h
      exact List.Forall₂.nil
    | cons e rest ih =>
      intro res h
      unfold resolveLinks at h
      cases hs : findNode nodes e.source with
      | error msg => rw [hs] at h; exact absurd h (by simp)
      | ok s =>
        rw [hs] at h
        cases ht : findNode nodes e.target with
        | error msg => rw [ht] at h; exact absurd h (by simp)
        | ok t =>
          rw [ht] at h
          cases hr : resolveLinks nodes rest with
          | error msg => rw [hr] at h; exact absurd h (by simp)
          | ok res0 =>
            rw [hr] at h
            cases h
            have hsn := findNode_ok hs
            have htn := findNode_ok ht
            exact List.Forall₂.cons
              ⟨rfl, hsn.1, htn.1, hsn.2, htn.2⟩ (ih res0 hr)
  · intro nodes edges
    induction edges with
    | nil =>
      rintro ⟨e, he, -⟩
      exact absurd he (List.not_mem_nil e)
    | cons e rest ih =>
      rintro ⟨e0, he0, hnr⟩
      rcases List.mem_cons.mp he0 with he0 | he0
      · subst he0
        cases hs : findNode nodes e0.source with
        | error msg =>
          exact ⟨msg, by unfold resolveLinks; rw [hs]⟩
        | ok s =>
          have hsrc : ∃ n ∈ nodes, n.node_idx = e0.source :=
            ⟨s, (findNode_ok hs).2, (findNode_ok hs).1⟩
          cases ht : findNode nodes e0.target with
          | error msg =>
            exact ⟨msg, by unfold resolveLinks; rw [hs, ht]⟩
          | ok t =>
            have htgt : ∃ n ∈ nodes, n.node_idx = e0.target :=
              ⟨t, (findNode_ok ht).2, (findNode_ok ht).1⟩
            exact absurd ⟨hsrc, htgt⟩ hnr
      · obtain ⟨msg, hmsg⟩ := ih ⟨e0, he0, hnr⟩
        cases hs : findNode nodes e.source with
        | error msg2 =>
          exact ⟨msg2, by unfold resolveLinks; rw [hs]⟩
        | ok s =>
          cases ht : findNode nodes e.target with
          | error msg2 =>
            exact ⟨msg2, by unfold resolveLinks; rw [hs, ht]⟩
          | ok t =>
            exact ⟨msg, by unfold resolveLinks; rw [hs, ht, hmsg]⟩

/-- Claim C1, witness: with nodes {0, 1}, the edge (7 : 0 → 1) resolves to
the mirrored simulation edge, and with the same nodes the edge (7 : 0 → 2),
whose target identifier is unresolved, makes the whole build return an
error. -/
theorem resolveLinks_amended_witness :
    List.Forall₂ (Mirrors [⟨0⟩, ⟨1⟩]) [⟨7, 0, 1⟩]
        [⟨7, ⟨0⟩, ⟨1⟩⟩] ∧
      ∃ msg, resolveLinks [⟨0⟩, ⟨1⟩] [⟨7, 0, 2⟩] = Except.error msg :=
  ⟨resolveLinks_amended.1 [⟨0⟩, ⟨1⟩] [⟨7, 0, 1⟩] [⟨7, ⟨0⟩, ⟨1⟩⟩] rfl,
    resolveLinks_amended.2 [⟨0⟩, ⟨1⟩] [⟨7, 0, 2⟩]
      ⟨⟨7, 0, 2⟩, List.mem_singleton_self _, by simp [Resolvable]⟩⟩

/-- Claim C1, counterexample: with the single node 0 and the single edge
(0 : 0 → 1) whose target identifier 1 resolves to no node, the build does
not initialize for the remaining valid nodes and edges — link resolution
returns the thrown error, so no resolved edge set exists at all. -/
theorem resolveLinks_unresolved_aborts :
    resolveLinks [⟨0⟩] [⟨0, 0, 1⟩] = Except.error "node not found" := by
  rfl

/-- Claim C10: the snake-node scalar is the truthy fallback chain — a node
whose degree attribute equals 0 falls through to its k attribute (never
contributing 0 from degree); the sorted node list is ascending in this
value; the x position bound to the sorted index is strictly increasing
along the x-axis (for indices in range, on a plot wider than twice the node
padding); and the bound y position depends on the node only through this
same fallback value. -/
theorem ksnakes_sorted_by_fallback_value :
    (∀ n : KNode, n.degree = some 0 → nodeValue n = numOr n.k 0) ∧
    (∀ nodes : List KNode,
      List.Pairwise (fun a b => nodeValue a ≤ nodeValue b)
        (sortedNodes nodes)) ∧
    (∀ (n : ℕ) (W : ℚ) (i j : ℕ), i < j → j < n → 40 < W →
      snakeCX n W i < snakeCX n W j) ∧
    (∀ (maxK innerHeight : ℚ) (d d2 : KNode), nodeValue d = nodeValue d2 →
      snakeCY maxK innerHeight d = snakeCY maxK innerHeight d2) := by
  refine ⟨?_, ?_, ?_, ?_⟩
  · intro n h
    simp [nodeValue, numOr, h]
  · intro nodes
    have hs := @List.sorted_mergeSort KNode
      (fun a b : KNode => decide (nodeValue a ≤ nodeValue b))
      (fun a b c hab hbc => by
        simp only [decide_eq_true_eq] at *
        exact le_trans hab hbc)
      (fun a b => by
        simp only [Bool.or_eq_true, decide_eq_true_eq]
        exact le_total (nodeValue a) (nodeValue b))
      nodes
    exact hs.imp fun h => of_decide_eq_true h
  · intro n W i j hij hjn hW
    have hn2 : 2 ≤ n := by omega
    have hnle : ¬n ≤ 1 := by omega
    have hd : (0 : ℚ) < (n : ℚ) - 1 := by
      have : (2 : ℚ) ≤ (n : ℚ) := by exact_mod_cast hn2
      linarith
    have hijq : (i : ℚ) < (j : ℚ) := by exact_mod_cast hij
    have hW40 : (0 : ℚ) < (W - 20) - 20 := by linarith
    have hq : (i : ℚ) / ((n : ℚ) - 1) < (j : ℚ) / ((n : ℚ) - 1) := by
      apply div_lt_div_of_pos_right hijq hd
    have hmul := mul_lt_mul_of_pos_right hq hW40
    simp only [snakeCX, if_neg hnle]
    linarith
  · intro maxK innerHeight d d2 h
    simp [snakeCY, h]

/-- Claim C10, witness: a node with degree 0 and k 3 takes value 3 from the
fallback chain; a concrete two-node list is sorted ascending in the value;
with two nodes on a plot of inner width 100 the x position at sorted index
0 is strictly left of that at index 1; and two nodes with equal fallback
value get the same y position. -/
theorem ksnakes_sorted_by_fallback_value_witness :
    nodeValue ⟨0, some 0, some 3⟩ = numOr (some 3) 0 ∧
      List.Pairwise (fun a b => nodeValue a ≤ nodeValue b)
        (sortedNodes [⟨0, some 2, none⟩, ⟨1, some 0, some 1⟩]) ∧
      snakeCX 2 100 0 < snakeCX 2 100 1 ∧
      snakeCY 5 100 ⟨0, some 0, some 3⟩ = snakeCY 5 100 ⟨9, some 3, none⟩ :=
  ⟨by
      have h := ksnakes_sorted_by_fallback_value.1 ⟨0, some 0, some 3⟩ rfl
      simpa using h,
    ksnakes_sorted_by_fallback_value.2.1 [⟨0, some 2, none⟩, ⟨1, some 0, some 1⟩],
    ksnakes_sorted_by_fallback_value.2.2.1 2 100 0 1 (by norm_num) (by norm_num)
      (by norm_num),
    ksnakes_sorted_by_fallback_value.2.2.2 5 100 ⟨0, some 0, some 3⟩
      ⟨9, some 3, none⟩ (by norm_num [nodeValue, numOr])⟩

end Syndesmoscope
